import Mathlib

/-!
Verification of the infomed-ai-backend routing logic.

The `Chat` namespace is a shallow embedding of the Firebase variant
(src/chat.js, `exports.chat`): language detection (`isSpanish`), the
directive builder, provider try-order computation, and the sequential
fallback loop over provider adapters.  Outbound provider calls are
abstracted as oracles (`Adapters`) giving each adapter's outcome for the
request; the loop, key checks, error recording and response shaping are
translated statement by statement from the source.

The `Enhance` namespace embeds the Netlify function src/ai_enhance.js.
-/

set_option maxRecDepth 8000

namespace Chat

/-- Case folding as JS case-insensitive regex matching performs it on the
characters relevant here: ASCII letters plus the Latin-1 accented capitals
that fold onto the accented characters appearing in the source regexes. -/
def foldChar (c : Char) : Char :=
  if 'A' ≤ c ∧ c ≤ 'Z' then Char.ofNat (c.toNat + 32)
  else if c = 'Á' then 'á'
  else if c = 'É' then 'é'
  else if c = 'Í' then 'í'
  else if c = 'Ó' then 'ó'
  else if c = 'Ú' then 'ú'
  else if c = 'Ñ' then 'ñ'
  else if c = 'Ü' then 'ü'
  else c

/-- The character class of the first regex in `isSpanish`:
/[áéíóúñü¿¡]/i (src/chat.js line 19). -/
def accentChars : List Char := ['á', 'é', 'í', 'ó', 'ú', 'ñ', 'ü', '¿', '¡']

/-- Word characters for the JS regex word-boundary assertion \b
(ASCII letters, digits, underscore). -/
def isWordChar (c : Char) : Bool :=
  ('a' ≤ c && c ≤ 'z') || ('A' ≤ c && c ≤ 'Z') || ('0' ≤ c && c ≤ '9') || c == '_'

/-- Word-character test lifted to an optional character; positions outside
the string count as non-word. -/
def optWordChar : Option Char → Bool
  | none => false
  | some c => isWordChar c

/-- JS \b holds at position i of cs when exactly one of the neighbouring
positions (i-1 and i) holds a word character. -/
def boundaryAt (cs : List Char) (i : Nat) : Bool :=
  optWordChar (if i = 0 then none else cs.get? (i - 1)) != optWordChar (cs.get? i)

/-- The alternatives of the second regex in `isSpanish`
(src/chat.js lines 20-22), in source order, as folded character lists. -/
def spanishWords : List (List Char) :=
  [['e','l'], ['l','a'], ['l','o','s'], ['l','a','s'], ['u','n'], ['u','n','a'],
   ['d','e'], ['d','e','l'], ['a','l'], ['q','u','e'], ['y'], ['p','a','r','a'],
   ['p','o','r'], ['c','o','n'], ['s','i','n'], ['c','ó','m','o'], ['q','u','é'],
   ['c','u','á','n','d','o'], ['d','ó','n','d','e'], ['p','o','r','q','u','e'],
   ['t','e','n','g','o'], ['d','o','l','o','r'],
   ['n','e','u','r','o','p','a','t','í','a'],
   ['d','i','a','b','é','t','i','c','a'],
   ['s','í','n','t','o','m','a','s']]

/-- The regex \b w \b matches in cs starting at position i: the folded
input characters from i agree with w, and the word-boundary assertion
holds at both ends of the match. -/
def matchWordAt (cs : List Char) (i : Nat) (w : List Char) : Bool :=
  ((cs.drop i).take w.length).map foldChar == w
    && boundaryAt cs i && boundaryAt cs (i + w.length)

/-- Whether the accent-character regex /[áéíóúñü¿¡]/i matches s. -/
def hasAccent (s : String) : Bool :=
  s.data.any (fun c => accentChars.contains (foldChar c))

/-- Whether the stop-word regex (whole-word, case-insensitive) matches s:
some alternative matches at some start position. -/
def hasCommonWord (s : String) : Bool :=
  (List.range (s.data.length + 1)).any
    (fun i => spanishWords.any (fun w => matchWordAt s.data i w))

/-- isSpanish from src/chat.js lines 18-24: accent characters or a
whole-word stop-word occurrence. -/
def isSpanish (s : String) : Bool :=
  hasAccent s || hasCommonWord s

/-- The binary classification the spec calls the Language Detector. -/
inductive Lang
  | en
  | es
deriving DecidableEq, Repr

/-- detect realises the Language Detector contract on top of isSpanish. -/
def detect (s : String) : Lang :=
  if isSpanish s then Lang.es else Lang.en

/-- JS String.prototype.toLowerCase restricted to the characters compared
in this program (ASCII provider names and language tags). -/
def jsToLower (s : String) : String :=
  ⟨s.data.map foldChar⟩

/-- buildDirective from src/chat.js lines 25-33. -/
def buildDirective (lang specialty : String) : String :=
  "You are a careful medical information assistant. Educational only; not medical advice."
    ++ " "
    ++ (if lang = "es" then "Responde en español claro y profesional."
        else "Respond in concise, plain English.")
    ++ " " ++ "Specialty context: "
    ++ (if specialty = "" then "General" else specialty) ++ "."

/-- The three provider secrets; the empty string stands for an absent
or empty key, matching JS falsiness of the secret value. -/
structure Keys where
  openaiKey : String
  claudeKey : String
  geminiKey : String
deriving DecidableEq, Repr

/-- Oracle for the outbound calls of one request: what each provider's
adapter would produce, either extracted text or a thrown error
(its string form). -/
structure Adapters where
  openai : Except String String
  anthropic : Except String String
  gemini : Except String String

/-- An incoming POST body.  Absent string fields are the empty string,
which is JS-falsy exactly like undefined in every use the handler makes
of them. -/
structure Req where
  message : String
  specialty : String
  preferProvider : String
  preferLang : String
deriving DecidableEq, Repr

/-- providerPref from src/chat.js line 150:
(prefer.provider || 'auto').toLowerCase(). -/
def providerPref (req : Req) : String :=
  if req.preferProvider = "" then "auto" else jsToLower req.preferProvider

/-- Target-language resolution from src/chat.js lines 146-148: the client
toggle maps anything but 'es' to 'en', then an 'en' target auto-switches
to 'es' when the message looks Spanish. -/
def targetLang (req : Req) : String :=
  let t := if req.preferLang = "es" then "es" else "en"
  if t = "en" && isSpanish req.message then "es" else t

/-- autoOrder from src/chat.js lines 159-163: push each provider whose key
is present, in the order openai, gemini, anthropic; if none, push the
last-resort order gemini, openai, anthropic. -/
def autoOrder (k : Keys) : List String :=
  let l := (if k.openaiKey = "" then [] else ["openai"])
        ++ (if k.geminiKey = "" then [] else ["gemini"])
        ++ (if k.claudeKey = "" then [] else ["anthropic"])
  if l = [] then ["gemini", "openai", "anthropic"] else l

/-- tryOrder from src/chat.js line 165. -/
def tryOrder (k : Keys) (req : Req) : List String :=
  if providerPref req = "auto" then autoOrder k else [providerPref req]

/-- The key the loop body consults for a provider name. -/
def keyFor (k : Keys) (p : String) : String :=
  if p = "openai" then k.openaiKey
  else if p = "anthropic" then k.claudeKey
  else if p = "gemini" then k.geminiKey
  else ""

/-- Outcome of one iteration of the provider loop body. -/
inductive StepOut
  | success (text : String)
  | failure (err : String)
  | skip
deriving DecidableEq, Repr

/-- One iteration of the loop body of src/chat.js lines 171-194 for
provider name p: the key-presence check, the adapter call, and whether an
outbound call was issued (the second component lists the adapter invoked,
empty when the missing-key check throws first or no branch matches p). -/
def tryProvider (k : Keys) (a : Adapters) (p : String) : StepOut × List String :=
  if p = "openai" then
    if k.openaiKey = "" then (StepOut.failure "OPENAI_API_KEY missing", [])
    else match a.openai with
      | .ok t => (StepOut.success t, ["openai"])
      | .error e => (StepOut.failure e, ["openai"])
  else if p = "anthropic" then
    if k.claudeKey = "" then (StepOut.failure "ANTHROPIC_API_KEY missing", [])
    else match a.anthropic with
      | .ok t => (StepOut.success t, ["anthropic"])
      | .error e => (StepOut.failure e, ["anthropic"])
  else if p = "gemini" then
    if k.geminiKey = "" then (StepOut.failure "GEMINI_API_KEY missing", [])
    else match a.gemini with
      | .ok t => (StepOut.success t, ["gemini"])
      | .error e => (StepOut.failure e, ["gemini"])
  else (StepOut.skip, [])

/-- Whether a loop-body outcome is a success (the branch that breaks). -/
def isSuccessOut : StepOut → Bool
  | StepOut.success _ => true
  | StepOut.failure _ => false
  | StepOut.skip => false

/-- The mutable state of the loop: text, used and lastErr as in the
source, plus the observation trace the spec reasons about: adapters
actually invoked and every error recorded into lastErr, in order. -/
structure LoopState where
  text : String
  used : Option String
  lastErr : Option String
  invoked : List String
  errors : List String
deriving DecidableEq, Repr

def initState : LoopState :=
  ⟨"", none, none, [], []⟩

/-- The for-loop of src/chat.js lines 171-195: iterate the try-order,
breaking at the first success, recording each failure as lastErr and
continuing. -/
def runLoop (k : Keys) (a : Adapters) : List String → LoopState → LoopState
  | [], st => st
  | p :: rest, st =>
    match tryProvider k a p with
    | (StepOut.success t, inv) =>
      { st with text := t, used := some p, invoked := st.invoked ++ inv }
    | (StepOut.failure e, inv) =>
      runLoop k a rest
        { st with lastErr := some e, errors := st.errors ++ [e],
                  invoked := st.invoked ++ inv }
    | (StepOut.skip, _) => runLoop k a rest st

/-- The JSON response body (the wall-clock ms field is omitted: it is
real time, not modelled).  none marks an absent field. -/
structure Resp where
  status : Nat
  text : Option String
  provider : Option String
  err : Option String
  lang : Option String
deriving DecidableEq, Repr

/-- The observable outcome of one request: the response plus the adapters
invoked and the errors recorded while routing. -/
structure ChatOut where
  resp : Resp
  invoked : List String
  errors : List String
deriving DecidableEq, Repr

def enApology : String :=
  "I couldn’t reach any AI providers right now. Please try again or tap Home to view reference content."

def esApology : String :=
  "No pude contactar a los servicios de IA en este momento. Intente de nuevo o toque 'Inicio' para ver contenido de referencia."

def genericError : String :=
  "I hit an unexpected error. Please try again in a moment."

/-- Routing after validation and secret access (src/chat.js lines
146-208): run the loop over the try-order; a null used yields the
language-appropriate fallback response embedding String(lastErr || ''),
otherwise the success response. -/
def route (k : Keys) (a : Adapters) (req : Req) : ChatOut :=
  let st := runLoop k a (tryOrder k req) initState
  match st.used with
  | none =>
    ⟨⟨200, some (if targetLang req = "es" then esApology else enApology),
      some "fallback", some (st.lastErr.getD ""), none⟩,
     st.invoked, st.errors⟩
  | some u =>
    ⟨⟨200, some st.text, some u, none, some (targetLang req)⟩,
     st.invoked, st.errors⟩

/-- The POST handler body of src/chat.js lines 138-218: the missing
message check, then secret access (which may throw, modelled as the
Except argument), then routing; the surrounding try/catch converts any
escaped exception into the provider:'error' response. -/
def chat (secrets : Except String Keys) (a : Adapters) (req : Req) : ChatOut :=
  if req.message = "" then
    ⟨⟨400, none, none, some "message required", none⟩, [], []⟩
  else
    match secrets with
    | .ok k => route k a req
    | .error e => ⟨⟨200, some genericError, some "error", some e, none⟩, [], []⟩

/-- The part of an OpenAI chat-completions reply the adapter reads:
j.choices?.[0]?.message?.content (src/chat.js line 54).  Absent fields
are none. -/
structure OAMessage where
  content : Option String
deriving DecidableEq, Repr

structure OAChoice where
  message : Option OAMessage
deriving DecidableEq, Repr

structure OAReply where
  choices : List OAChoice
deriving DecidableEq, Repr

/-- The optional-chaining access j.choices?.[0]?.message?.content. -/
def oaRaw (j : OAReply) : Option String :=
  j.choices.head? >>= (·.message) >>= (·.content)

/-- The adapter's text extraction on a 2xx OpenAI reply
(src/chat.js line 54): chain, trim, and the || '' default. -/
def extractOpenAI (j : OAReply) : String :=
  ((oaRaw j).map String.trim).getD ""

end Chat

namespace Enhance

/-- Outcome of one provider block of src/ai_enhance.js for this request:
the key is absent (the block does nothing), the call throws (caught,
enhanced untouched), or the call returns 2xx and the block assigns its
extraction result to enhanced (none models an undefined extraction). -/
inductive POutcome
  | noKey
  | httpError
  | ok (extracted : Option String)
deriving DecidableEq, Repr

/-- Oracle for the three provider blocks of one request. -/
structure Env where
  openai : POutcome
  claude : POutcome
  gemini : POutcome
deriving DecidableEq, Repr

/-- JS truthiness of the enhanced variable (null, undefined and the empty
string are falsy). -/
def jsTruthy : Option String → Bool
  | none => false
  | some s => s ≠ ""

/-- Effect of one provider block on enhanced, given that the block runs. -/
def stage (out : POutcome) (enhanced : Option String) : Option String :=
  match out with
  | POutcome.noKey => enhanced
  | POutcome.httpError => enhanced
  | POutcome.ok v => v

/-- The outbound call a block issues: one call when its key is present,
none otherwise. -/
def calls (out : POutcome) (name : String) : List String :=
  match out with
  | POutcome.noKey => []
  | _ => [name]

/-- The provider cascade of src/ai_enhance.js lines 25-94: OpenAI runs
unconditionally (enhanced starts null), Claude and Gemini each run only
while enhanced is still falsy.  Returns the final enhanced value and the
providers actually called. -/
def runProviders (env : Env) : Option String × List String :=
  let e1 := stage env.openai none
  let c1 := calls env.openai "openai"
  let e2 := if jsTruthy e1 then e1 else stage env.claude e1
  let c2 := if jsTruthy e1 then [] else calls env.claude "claude"
  let e3 := if jsTruthy e2 then e2 else stage env.gemini e2
  let c3 := if jsTruthy e2 then [] else calls env.gemini "gemini"
  (e3, c1 ++ c2 ++ c3)

/-- JS String.prototype.slice(0, n): the first n characters. -/
def jsSlice (s : String) (n : Nat) : String :=
  ⟨s.data.take n⟩

/-- A provider block that never assigns to enhanced: its key is absent
(skipped) or its call threw (failed). -/
def skippedOrFailed (o : POutcome) : Prop :=
  o = POutcome.noKey ∨ o = POutcome.httpError

/-- An ai_enhance request (absent base/topic are the empty string,
JS-falsy exactly like undefined in the validation check). -/
structure EReq where
  httpMethod : String
  base : String
  topic : String
  lang : String
deriving DecidableEq, Repr

/-- The safe-topic allow-list of src/ai_enhance.js line 8. -/
def safeTopics : List String :=
  ["hypertension", "cholesterol", "asthma", "diabetes"]

/-- A response of the handler: status code, the enhanced field and the
error field of the JSON body. -/
structure EResp where
  statusCode : Nat
  enhanced : Option String
  error : Option String
deriving DecidableEq, Repr

/-- The handler of src/ai_enhance.js: method check, base/topic
validation, the safe-topic short-circuit returning base unchanged, the
6000-character clamp, the provider cascade, and the final
if (!enhanced) enhanced = baseClamped.  Returns the response and the
providers invoked. -/
def handler (env : Env) (r : EReq) : EResp × List String :=
  if r.httpMethod ≠ "POST" then (⟨405, none, some "Method not allowed"⟩, [])
  else if r.base = "" ∨ r.topic = "" then (⟨400, none, some "Missing base/topic"⟩, [])
  else if ¬ safeTopics.contains (Chat.jsToLower r.topic) then
    (⟨200, some r.base, none⟩, [])
  else
    let baseClamped := jsSlice r.base 6000
    let (v, cs) := runProviders env
    let finalText := match v with
      | some s => if s = "" then baseClamped else s
      | none => baseClamped
    (⟨200, some finalText, none⟩, cs)

end Enhance

example : Chat.isSpanish "hello world" = false := by decide
example : Chat.isSpanish "Tengo dolor de cabeza" = true := by decide
example : Chat.isSpanish "hypertension" = false := by decide
example : Chat.detect "¿hola?" = Chat.Lang.es := by decide
example : Chat.autoOrder ⟨"", "", ""⟩ = ["gemini", "openai", "anthropic"] := by decide
example : Chat.autoOrder ⟨"a", "b", "c"⟩ = ["openai", "gemini", "anthropic"] := by decide

-- Scratch checks (to be pruned)
example : Chat.tryOrder ⟨"", "", ""⟩ ⟨"hola", "", "", ""⟩ = ["gemini", "openai", "anthropic"] := by decide
example :
    Chat.chat (.ok ⟨"", "", ""⟩) ⟨.error "x", .error "y", .error "z"⟩ ⟨"hi", "", "", ""⟩ =
      ⟨⟨200, some Chat.enApology, some "fallback", some "ANTHROPIC_API_KEY missing", none⟩, [],
        ["GEMINI_API_KEY missing", "OPENAI_API_KEY missing", "ANTHROPIC_API_KEY missing"]⟩ := by
  rfl
example : Chat.targetLang ⟨"¿hola?", "", "", "en"⟩ = "es" := by decide
example :
    Chat.chat (.ok ⟨"ko", "kc", "kg"⟩) ⟨.error "e1", .ok "claude says", .error "e2"⟩
        ⟨"hi", "", "", ""⟩ =
      ⟨⟨200, some "claude says", some "anthropic", none, some "en"⟩,
        ["openai", "gemini", "anthropic"], ["e1", "e2"]⟩ := by
  rfl
example : Chat.extractOpenAI ⟨[]⟩ = "" := by decide
example :
    Chat.chat (.ok ⟨"ko", "", ""⟩) ⟨.ok "", .error "e", .error "e"⟩ ⟨"hi", "", "openai", ""⟩ =
      ⟨⟨200, some "", some "openai", none, some "en"⟩, ["openai"], []⟩ := by
  rfl
example :
    Enhance.handler ⟨.noKey, .noKey, .noKey⟩ ⟨"POST", "some base", "gardening", "en"⟩ =
      (⟨200, some "some base", none⟩, []) := by rfl
example :
    Enhance.handler ⟨.httpError, .noKey, .httpError⟩ ⟨"POST", "some base", "Asthma", "en"⟩ =
      (⟨200, some "some base", none⟩, ["openai", "gemini"]) := by rfl
example :
    Chat.chat (.error "boom") ⟨.ok "t", .ok "t", .ok "t"⟩ ⟨"hi", "", "", ""⟩ =
      ⟨⟨200, some Chat.genericError, some "error", some "boom", none⟩, [], []⟩ := by rfl
example :
    Chat.chat (.error "boom") ⟨.ok "t", .ok "t", .ok "t"⟩ ⟨"", "", "", ""⟩ =
      ⟨⟨400, none, none, some "message required", none⟩, [], []⟩ := by rfl

namespace Chat

theorem contains_iff {α : Type} [BEq α] [LawfulBEq α] {l : List α} {c : α} :
    l.contains c = true ↔ c ∈ l := by
  induction l with
  | nil => simp
  | cons a t ih => simp [List.contains_cons] at *

theorem spanishWords_ne_nil : ∀ w ∈ spanishWords, w ≠ [] := by decide

theorem matchWordAt_lt (cs : List Char) (i : Nat) (w : List Char)
    (hw : w ≠ []) (h : matchWordAt cs i w = true) : i < cs.length + 1 := by
  by_contra hlt
  push_neg at hlt
  have hdrop : cs.drop i = [] := List.drop_eq_nil_of_le (by omega)
  have h1 : (((cs.drop i).take w.length).map foldChar == w) = true :=
    ((Bool.and_eq_true _ _).mp ((Bool.and_eq_true _ _).mp h).1).1
  rw [hdrop] at h1
  simp at h1
  exact hw h1

theorem runLoop_used_of_no_success (k : Keys) (a : Adapters) (l : List String)
    (st : LoopState) (h : ∀ p ∈ l, isSuccessOut (tryProvider k a p).1 = false) :
    (runLoop k a l st).used = st.used := by
  induction l generalizing st with
  | nil => rfl
  | cons p rest ih =>
    have hp := h p (List.mem_cons_self p rest)
    have hrest : ∀ q ∈ rest, isSuccessOut (tryProvider k a q).1 = false :=
      fun q hq => h q (List.mem_cons_of_mem p hq)
    rcases hout : tryProvider k a p with ⟨s, inv⟩
    rw [hout] at hp
    cases s with
    | success t => simp [isSuccessOut] at hp
    | failure e =>
      simp only [runLoop, hout]
      exact ih _ hrest
    | skip =>
      simp only [runLoop, hout]
      exact ih _ hrest

theorem runLoop_invoked_of_no_call (k : Keys) (a : Adapters) (l : List String)
    (st : LoopState)
    (h : ∀ p ∈ l, isSuccessOut (tryProvider k a p).1 = false ∧ (tryProvider k a p).2 = []) :
    (runLoop k a l st).invoked = st.invoked := by
  induction l generalizing st with
  | nil => rfl
  | cons p rest ih =>
    have hp := (h p (List.mem_cons_self p rest))
    have hrest : ∀ q ∈ rest,
        isSuccessOut (tryProvider k a q).1 = false ∧ (tryProvider k a q).2 = [] :=
      fun q hq => h q (List.mem_cons_of_mem p hq)
    rcases hout : tryProvider k a p with ⟨s, inv⟩
    rw [hout] at hp
    cases s with
    | success t => simp [isSuccessOut] at hp
    | failure e =>
      have hinv : inv = [] := by simpa using hp.2
      simp only [runLoop, hout, hinv, List.append_nil]
      exact ih _ hrest
    | skip =>
      simp only [runLoop, hout]
      exact ih _ hrest

theorem tryProvider_noKeys (a : Adapters) (p : String) :
    isSuccessOut (tryProvider ⟨"", "", ""⟩ a p).1 = false ∧
      (tryProvider ⟨"", "", ""⟩ a p).2 = [] := by
  by_cases h1 : p = "openai"
  · simp [tryProvider, h1, isSuccessOut]
  · by_cases h2 : p = "anthropic"
    · simp [tryProvider, h1, h2, isSuccessOut]
    · by_cases h3 : p = "gemini"
      · simp [tryProvider, h1, h2, h3, isSuccessOut]
      · simp [tryProvider, h1, h2, h3, isSuccessOut]

theorem autoOrder_eq_filter (k : Keys)
    (hk : k.openaiKey ≠ "" ∨ k.geminiKey ≠ "" ∨ k.claudeKey ≠ "") :
    autoOrder k = ["openai", "gemini", "anthropic"].filter (fun p => keyFor k p != "") := by
  rcases eq_or_ne k.openaiKey "" with h1 | h1 <;> rcases eq_or_ne k.geminiKey "" with h2 | h2 <;>
    rcases eq_or_ne k.claudeKey "" with h3 | h3 <;>
      · simp [autoOrder, keyFor, h1, h2, h3]
        try tauto

end Chat

/-- Claim C5: for every request with a non-empty message, an exception
raised during routing that is not a per-provider error (here: a fault in
secret access, the only non-provider throw site inside the guarded block)
is caught at the handler boundary and converted into a status-200 result
with provider = "error" and the generic apology text; no fault propagates
(the handler is a total function into results). -/
theorem claim_C5 : ∀ (e : String) (a : Chat.Adapters) (req : Chat.Req),
    req.message ≠ "" →
    Chat.chat (.error e) a req =
      ⟨⟨200, some Chat.genericError, some "error", some e, none⟩, [], []⟩ := by
  intro e a req hmsg
  simp [Chat.chat, hmsg]

/-- Witness for C5 at a concrete faulting request. -/
theorem claim_C5_witness :
    Chat.chat (.error "secret store down") ⟨.ok "t", .ok "t", .ok "t"⟩
        ⟨"What is asthma?", "", "", ""⟩ =
      ⟨⟨200, some Chat.genericError, some "error", some "secret store down", none⟩, [], []⟩ :=
  claim_C5 "secret store down" ⟨.ok "t", .ok "t", .ok "t"⟩
    ⟨"What is asthma?", "", "", ""⟩ (by decide)

/-- Claim C9: a POST /chat request whose message is missing or empty gets
the 400 validation response and no adapter is ever invoked. -/
theorem claim_C9 : ∀ (secrets : Except String Chat.Keys) (a : Chat.Adapters)
    (req : Chat.Req), req.message = "" →
    Chat.chat secrets a req =
      ⟨⟨400, none, none, some "message required", none⟩, [], []⟩ := by
  intro secrets a req hmsg
  simp [Chat.chat, hmsg]

/-- Witness for C9 at the concrete empty-message request. -/
theorem claim_C9_witness :
    Chat.chat (.ok ⟨"k1", "k2", "k3"⟩) ⟨.ok "t", .ok "t", .ok "t"⟩ ⟨"", "", "", ""⟩ =
      ⟨⟨400, none, none, some "message required", none⟩, [], []⟩ :=
  claim_C9 (.ok ⟨"k1", "k2", "k3"⟩) ⟨.ok "t", .ok "t", .ok "t"⟩ ⟨"", "", "", ""⟩ rfl

/-- Claim C3 counterexample: with the explicit preference lang = "en" and
a Spanish-looking message, src/chat.js resolves the target language to
"es", overriding the explicit preference; the surfaced lang field of a
successful response shows it.  The claim, which says an explicit "en" is
honored as given, is therefore false. -/
theorem claim_C3_counterexample :
    Chat.targetLang ⟨"¿hola?", "", "", "en"⟩ = "es" ∧
      (Chat.chat (.ok ⟨"k", "", ""⟩) ⟨.ok "txt", .ok "t", .ok "t"⟩
          ⟨"¿hola?", "", "", "en"⟩).resp.lang = some "es" := by
  constructor
  · decide
  · rfl

/-- Claim C3 as amended: an explicit preference lang = "es" is honored;
for every other preference value, including an explicit "en", the
resolved language is the detector's classification of the message ("es"
when the message looks Spanish, "en" otherwise), so the detector can
override an explicit "en". -/
theorem claim_C3_amended : ∀ req : Chat.Req,
    (req.preferLang = "es" → Chat.targetLang req = "es") ∧
      (req.preferLang ≠ "es" →
        Chat.targetLang req = (if Chat.isSpanish req.message then "es" else "en")) := by
  intro req
  constructor
  · intro h
    simp [Chat.targetLang, h]
  · intro h
    cases hsp : Chat.isSpanish req.message <;> simp [Chat.targetLang, h, hsp]

/-- Witness for the amended C3 at concrete requests. -/
theorem claim_C3_amended_witness :
    Chat.targetLang ⟨"hi", "", "", "es"⟩ = "es" ∧
      Chat.targetLang ⟨"tengo dolor", "", "", "en"⟩ =
        (if Chat.isSpanish "tengo dolor" then "es" else "en") :=
  ⟨(claim_C3_amended ⟨"hi", "", "", "es"⟩).1 rfl,
   (claim_C3_amended ⟨"tengo dolor", "", "", "en"⟩).2 (by decide)⟩

/-- Claim C2 counterexample: with zero configured keys and an auto
preference, the try-order is not empty as the claim states: src/chat.js
lines 163 pushes the fixed last-resort order gemini, openai, anthropic. -/
theorem claim_C2_counterexample :
    Chat.tryOrder ⟨"", "", ""⟩ ⟨"Tengo dolor de cabeza", "", "", ""⟩ =
        ["gemini", "openai", "anthropic"] ∧
      (["gemini", "openai", "anthropic"] : List String) ≠ [] := by
  constructor
  · rfl
  · decide

/-- Claim C2 as amended: with zero configured keys and a non-empty
message, the result still has provider = "fallback" and no adapter is
ever invoked (every try-order entry fails its key-presence check before
any outbound call) — but the try-order itself is not empty. -/
theorem claim_C2_amended : ∀ (a : Chat.Adapters) (req : Chat.Req),
    req.message ≠ "" →
    (Chat.chat (.ok ⟨"", "", ""⟩) a req).resp.provider = some "fallback" ∧
      (Chat.chat (.ok ⟨"", "", ""⟩) a req).invoked = [] := by
  intro a req hmsg
  have hfail : ∀ p ∈ Chat.tryOrder ⟨"", "", ""⟩ req,
      Chat.isSuccessOut (Chat.tryProvider ⟨"", "", ""⟩ a p).1 = false :=
    fun p _ => (Chat.tryProvider_noKeys a p).1
  have hcall : ∀ p ∈ Chat.tryOrder ⟨"", "", ""⟩ req,
      Chat.isSuccessOut (Chat.tryProvider ⟨"", "", ""⟩ a p).1 = false ∧
        (Chat.tryProvider ⟨"", "", ""⟩ a p).2 = [] :=
    fun p _ => Chat.tryProvider_noKeys a p
  have hused := Chat.runLoop_used_of_no_success ⟨"", "", ""⟩ a
    (Chat.tryOrder ⟨"", "", ""⟩ req) Chat.initState hfail
  have hinv := Chat.runLoop_invoked_of_no_call ⟨"", "", ""⟩ a
    (Chat.tryOrder ⟨"", "", ""⟩ req) Chat.initState hcall
  simp only [Chat.initState] at hused hinv
  constructor <;> simp [Chat.chat, hmsg, Chat.route, Chat.initState, hused, hinv]

/-- Witness for the amended C2 at a concrete request. -/
theorem claim_C2_amended_witness :
    (Chat.chat (.ok ⟨"", "", ""⟩) ⟨.ok "t", .ok "t", .ok "t"⟩
        ⟨"Hola doctor", "", "", ""⟩).resp.provider = some "fallback" ∧
      (Chat.chat (.ok ⟨"", "", ""⟩) ⟨.ok "t", .ok "t", .ok "t"⟩
          ⟨"Hola doctor", "", "", ""⟩).invoked = [] :=
  claim_C2_amended ⟨.ok "t", .ok "t", .ok "t"⟩ ⟨"Hola doctor", "", "", ""⟩ (by decide)

/-- Helper: an iteration of the loop body invokes, at most, the adapter
of the provider name it was given. -/
theorem tryProvider_snd_subset (k : Chat.Keys) (a : Chat.Adapters) (p : String) :
    (Chat.tryProvider k a p).2 ⊆ [p] := by
  by_cases h1 : p = "openai"
  · subst h1
    rcases eq_or_ne k.openaiKey "" with h | h
    · simp [Chat.tryProvider, h]
    · cases ho : a.openai <;> simp [Chat.tryProvider, h, ho]
  · by_cases h2 : p = "anthropic"
    · subst h2
      rcases eq_or_ne k.claudeKey "" with h | h
      · simp [Chat.tryProvider, h]
      · cases ho : a.anthropic <;> simp [Chat.tryProvider, h, ho]
    · by_cases h3 : p = "gemini"
      · subst h3
        rcases eq_or_ne k.geminiKey "" with h | h
        · simp [Chat.tryProvider, h]
        · cases ho : a.gemini <;> simp [Chat.tryProvider, h, ho]
      · simp [Chat.tryProvider, h1, h2, h3]

/-- Claim C1: for an absent or "auto" provider preference with at least
one configured key, the try-order is exactly the providers with non-empty
keys in the fixed order openai, gemini, anthropic; and in the
three-key scenario where only Anthropic succeeds, the router invokes
openai, then gemini, then anthropic, returns provider = "anthropic" with
Anthropic's text, records both earlier failures in order, and surfaces
neither (the success response carries no error field). -/
theorem claim_C1 :
    (∀ (k : Chat.Keys) (req : Chat.Req),
        Chat.providerPref req = "auto" →
        (k.openaiKey ≠ "" ∨ k.geminiKey ≠ "" ∨ k.claudeKey ≠ "") →
        Chat.tryOrder k req =
          ["openai", "gemini", "anthropic"].filter (fun p => Chat.keyFor k p != "")) ∧
    (∀ (k : Chat.Keys) (req : Chat.Req) (e1 e2 t : String),
        req.message ≠ "" → Chat.providerPref req = "auto" →
        k.openaiKey ≠ "" → k.geminiKey ≠ "" → k.claudeKey ≠ "" →
        Chat.chat (.ok k) ⟨.error e1, .ok t, .error e2⟩ req =
          ⟨⟨200, some t, some "anthropic", none, some (Chat.targetLang req)⟩,
            ["openai", "gemini", "anthropic"], [e1, e2]⟩) := by
  constructor
  · intro k req hpref hkey
    rw [Chat.tryOrder, if_pos hpref]
    exact Chat.autoOrder_eq_filter k hkey
  · intro k req e1 e2 t hmsg hpref h1 h2 h3
    have hord : Chat.tryOrder k req = ["openai", "gemini", "anthropic"] := by
      rw [Chat.tryOrder, if_pos hpref]
      simp [Chat.autoOrder, h1, h2, h3]
    simp [Chat.chat, hmsg, Chat.route, hord, Chat.runLoop, Chat.tryProvider, h1, h2, h3,
      Chat.initState]

/-- Witness for C1 at concrete keys, adapters and requests. -/
theorem claim_C1_witness :
    (Chat.tryOrder ⟨"sk", "", "gk"⟩ ⟨"What is asthma?", "", "", ""⟩ =
      ["openai", "gemini", "anthropic"].filter
        (fun p => Chat.keyFor ⟨"sk", "", "gk"⟩ p != "")) ∧
    Chat.chat (.ok ⟨"sk", "ck", "gk"⟩) ⟨.error "E1", .ok "ok text", .error "E2"⟩
        ⟨"What is asthma?", "", "auto", ""⟩ =
      ⟨⟨200, some "ok text", some "anthropic", none,
          some (Chat.targetLang ⟨"What is asthma?", "", "auto", ""⟩)⟩,
        ["openai", "gemini", "anthropic"], ["E1", "E2"]⟩ :=
  ⟨claim_C1.1 ⟨"sk", "", "gk"⟩ ⟨"What is asthma?", "", "", ""⟩ rfl (by simp),
   claim_C1.2 ⟨"sk", "ck", "gk"⟩ ⟨"What is asthma?", "", "auto", ""⟩ "E1" "E2" "ok text"
     (by decide) rfl (by decide) (by decide) (by decide)⟩

/-- Claim C4: an explicit provider preference yields a try-order of
exactly that provider; when that single provider fails, no other provider
is attempted and the result falls back; and the claim's concrete
scenario: preference openai, only the OpenAI key configured, adapter
returning "Hypertension is...", gives that text with provider openai. -/
theorem claim_C4 :
    (∀ (k : Chat.Keys) (req : Chat.Req) (p : String),
        (p = "openai" ∨ p = "anthropic" ∨ p = "gemini") →
        Chat.providerPref req = p →
        Chat.tryOrder k req = [p]) ∧
    (∀ (k : Chat.Keys) (a : Chat.Adapters) (req : Chat.Req) (p : String),
        (p = "openai" ∨ p = "anthropic" ∨ p = "gemini") →
        Chat.providerPref req = p → req.message ≠ "" →
        Chat.isSuccessOut (Chat.tryProvider k a p).1 = false →
        (Chat.chat (.ok k) a req).resp.provider = some "fallback" ∧
          (Chat.chat (.ok k) a req).invoked ⊆ [p]) ∧
    (∀ (kq : String) (a : Chat.Adapters) (req : Chat.Req),
        kq ≠ "" → req.message ≠ "" → Chat.providerPref req = "openai" →
        a.openai = .ok "Hypertension is..." →
        Chat.chat (.ok ⟨kq, "", ""⟩) a req =
          ⟨⟨200, some "Hypertension is...", some "openai", none,
              some (Chat.targetLang req)⟩, ["openai"], []⟩) := by
  refine ⟨?_, ?_, ?_⟩
  · intro k req p hp hpref
    have hne : Chat.providerPref req ≠ "auto" := by
      rw [hpref]; rcases hp with h | h | h <;> subst h <;> decide
    rw [Chat.tryOrder, if_neg hne, hpref]
  · intro k a req p hp hpref hmsg hnosucc
    have hne : Chat.providerPref req ≠ "auto" := by
      rw [hpref]; rcases hp with h | h | h <;> subst h <;> decide
    have htry : Chat.tryOrder k req = [p] := by
      rw [Chat.tryOrder, if_neg hne, hpref]
    have hsub := tryProvider_snd_subset k a p
    rcases hout : Chat.tryProvider k a p with ⟨s, inv⟩
    rw [hout] at hnosucc hsub
    simp only at hnosucc hsub
    cases s with
    | success t => simp [Chat.isSuccessOut] at hnosucc
    | failure e =>
      constructor
      · simp [Chat.chat, hmsg, Chat.route, htry, Chat.runLoop, hout, Chat.initState]
      · simp [Chat.chat, hmsg, Chat.route, htry, Chat.runLoop, hout, Chat.initState]
        exact hsub
    | skip =>
      constructor
      · simp [Chat.chat, hmsg, Chat.route, htry, Chat.runLoop, hout, Chat.initState]
      · simp [Chat.chat, hmsg, Chat.route, htry, Chat.runLoop, hout, Chat.initState]
  · intro kq a req hk hmsg hpref ha
    have htry : Chat.tryOrder ⟨kq, "", ""⟩ req = ["openai"] := by
      rw [Chat.tryOrder, if_neg (by rw [hpref]; decide), hpref]
    simp [Chat.chat, hmsg, Chat.route, htry, Chat.runLoop, Chat.tryProvider, hk, ha,
      Chat.initState]

/-- Witness for C4 at concrete inputs. -/
theorem claim_C4_witness :
    Chat.tryOrder ⟨"", "", "gk"⟩ ⟨"hi", "", "Gemini", ""⟩ = ["gemini"] ∧
    ((Chat.chat (.ok ⟨"", "ck", ""⟩) ⟨.ok "t", .error "E", .ok "t"⟩
        ⟨"hi", "", "anthropic", ""⟩).resp.provider = some "fallback" ∧
      (Chat.chat (.ok ⟨"", "ck", ""⟩) ⟨.ok "t", .error "E", .ok "t"⟩
          ⟨"hi", "", "anthropic", ""⟩).invoked ⊆ ["anthropic"]) ∧
    Chat.chat (.ok ⟨"ok-key", "", ""⟩) ⟨.ok "Hypertension is...", .error "E", .error "E"⟩
        ⟨"What is hypertension?", "", "openai", ""⟩ =
      ⟨⟨200, some "Hypertension is...", some "openai", none,
          some (Chat.targetLang ⟨"What is hypertension?", "", "openai", ""⟩)⟩,
        ["openai"], []⟩ :=
  ⟨claim_C4.1 ⟨"", "", "gk"⟩ ⟨"hi", "", "Gemini", ""⟩ "gemini" (by tauto) (by decide),
   claim_C4.2.1 ⟨"", "ck", ""⟩ ⟨.ok "t", .error "E", .ok "t"⟩ ⟨"hi", "", "anthropic", ""⟩
     "anthropic" (by tauto) (by decide) (by decide) (by decide),
   claim_C4.2.2 "ok-key" ⟨.ok "Hypertension is...", .error "E", .error "E"⟩
     ⟨"What is hypertension?", "", "openai", ""⟩ (by decide) (by decide) (by decide) rfl⟩

/-- Claim C6: when every provider in the try-order fails, the router
returns provider = "fallback" with the fixed English apology when the
resolved language is en and the fixed Spanish apology when it is es, and
the error field embeds the string form of the last recorded provider
error (String(lastErr || '')). -/
theorem claim_C6 : ∀ (k : Chat.Keys) (a : Chat.Adapters) (req : Chat.Req),
    req.message ≠ "" →
    (∀ p ∈ Chat.tryOrder k req, Chat.isSuccessOut (Chat.tryProvider k a p).1 = false) →
    Chat.chat (.ok k) a req =
      ⟨⟨200, some (if Chat.targetLang req = "es" then Chat.esApology else Chat.enApology),
          some "fallback",
          some ((Chat.runLoop k a (Chat.tryOrder k req) Chat.initState).lastErr.getD ""),
          none⟩,
        (Chat.runLoop k a (Chat.tryOrder k req) Chat.initState).invoked,
        (Chat.runLoop k a (Chat.tryOrder k req) Chat.initState).errors⟩ := by
  intro k a req hmsg hfail
  have hused := Chat.runLoop_used_of_no_success k a (Chat.tryOrder k req) Chat.initState hfail
  simp only [Chat.initState] at hused
  simp [Chat.chat, hmsg, Chat.route, Chat.initState, hused]

/-- Witness for C6 at concrete keys, all-failing adapters and a Spanish
message. -/
theorem claim_C6_witness :
    Chat.chat (.ok ⟨"a", "b", "c"⟩) ⟨.error "E1", .error "E2", .error "E3"⟩
        ⟨"Tengo dolor", "", "", ""⟩ =
      ⟨⟨200, some (if Chat.targetLang ⟨"Tengo dolor", "", "", ""⟩ = "es"
            then Chat.esApology else Chat.enApology),
          some "fallback",
          some ((Chat.runLoop ⟨"a", "b", "c"⟩ ⟨.error "E1", .error "E2", .error "E3"⟩
            (Chat.tryOrder ⟨"a", "b", "c"⟩ ⟨"Tengo dolor", "", "", ""⟩)
            Chat.initState).lastErr.getD ""),
          none⟩,
        (Chat.runLoop ⟨"a", "b", "c"⟩ ⟨.error "E1", .error "E2", .error "E3"⟩
          (Chat.tryOrder ⟨"a", "b", "c"⟩ ⟨"Tengo dolor", "", "", ""⟩)
          Chat.initState).invoked,
        (Chat.runLoop ⟨"a", "b", "c"⟩ ⟨.error "E1", .error "E2", .error "E3"⟩
          (Chat.tryOrder ⟨"a", "b", "c"⟩ ⟨"Tengo dolor", "", "", ""⟩)
          Chat.initState).errors⟩ :=
  claim_C6 ⟨"a", "b", "c"⟩ ⟨.error "E1", .error "E2", .error "E3"⟩
    ⟨"Tengo dolor", "", "", ""⟩ (by decide) (by decide)

/-- Claim C7: a 2xx reply whose payload yields no extractable text makes
the adapter return the empty string rather than fail, and the router
treats that empty string as a success: it records the provider, stops
iterating (the rest of the try-order is never consulted), and does not
fall back. -/
theorem claim_C7 :
    (∀ j : Chat.OAReply, Chat.oaRaw j = none → Chat.extractOpenAI j = "") ∧
    (∀ (k : Chat.Keys) (a : Chat.Adapters) (rest : List String) (st : Chat.LoopState),
        k.openaiKey ≠ "" → a.openai = .ok "" →
        Chat.runLoop k a ("openai" :: rest) st =
          { st with text := "", used := some "openai",
                    invoked := st.invoked ++ ["openai"] }) ∧
    (∀ (k : Chat.Keys) (a : Chat.Adapters) (req : Chat.Req),
        req.message ≠ "" → Chat.providerPref req = "openai" → k.openaiKey ≠ "" →
        a.openai = .ok "" →
        Chat.chat (.ok k) a req =
          ⟨⟨200, some "", some "openai", none, some (Chat.targetLang req)⟩,
            ["openai"], []⟩) := by
  refine ⟨?_, ?_, ?_⟩
  · intro j h
    simp [Chat.extractOpenAI, h]
  · intro k a rest st hk ha
    simp [Chat.runLoop, Chat.tryProvider, hk, ha]
  · intro k a req hmsg hpref hk ha
    have htry : Chat.tryOrder k req = ["openai"] := by
      rw [Chat.tryOrder, if_neg (by rw [hpref]; decide), hpref]
    simp [Chat.chat, hmsg, Chat.route, htry, Chat.runLoop, Chat.tryProvider, hk, ha,
      Chat.initState]

/-- Witness for C7 at a malformed payload and a concrete empty-text
success. -/
theorem claim_C7_witness :
    Chat.extractOpenAI ⟨[⟨none⟩]⟩ = "" ∧
    Chat.runLoop ⟨"k", "", ""⟩ ⟨.ok "", .error "e", .error "e"⟩
        ("openai" :: ["gemini"]) Chat.initState =
      { Chat.initState with text := "", used := some "openai",
                            invoked := Chat.initState.invoked ++ ["openai"] } ∧
    Chat.chat (.ok ⟨"k", "", ""⟩) ⟨.ok "", .error "e", .error "e"⟩
        ⟨"hi", "", "OpenAI", ""⟩ =
      ⟨⟨200, some "", some "openai", none,
          some (Chat.targetLang ⟨"hi", "", "OpenAI", ""⟩)⟩, ["openai"], []⟩ :=
  ⟨claim_C7.1 ⟨[⟨none⟩]⟩ rfl,
   claim_C7.2.1 ⟨"k", "", ""⟩ ⟨.ok "", .error "e", .error "e"⟩ ["gemini"]
     Chat.initState (by decide) rfl,
   claim_C7.2.2 ⟨"k", "", ""⟩ ⟨.ok "", .error "e", .error "e"⟩ ⟨"hi", "", "OpenAI", ""⟩
     (by decide) (by decide) (by decide) rfl⟩

/-- Claim C8: the Language Detector is a total deterministic function
from strings to {en, es}; it returns es exactly when the text contains a
character of the accent set (case-insensitively) or a whole-word,
word-boundary, case-insensitive occurrence of a listed Spanish stop word,
and returns en for every other string. -/
theorem claim_C8 : ∀ s : String,
    (Chat.detect s = Chat.Lang.es ↔
      ((∃ c ∈ s.data, Chat.foldChar c ∈ Chat.accentChars) ∨
        (∃ i w, w ∈ Chat.spanishWords ∧ Chat.matchWordAt s.data i w = true))) ∧
    (Chat.detect s = Chat.Lang.en ↔
      ¬ ((∃ c ∈ s.data, Chat.foldChar c ∈ Chat.accentChars) ∨
        (∃ i w, w ∈ Chat.spanishWords ∧ Chat.matchWordAt s.data i w = true))) := by
  intro s
  have hacc : Chat.hasAccent s = true ↔
      ∃ c ∈ s.data, Chat.foldChar c ∈ Chat.accentChars := by
    simp [Chat.hasAccent, List.any_eq_true, Chat.contains_iff]
  have hcw : Chat.hasCommonWord s = true ↔
      ∃ i w, w ∈ Chat.spanishWords ∧ Chat.matchWordAt s.data i w = true := by
    constructor
    · intro h
      simp only [Chat.hasCommonWord, List.any_eq_true, List.mem_range] at h
      obtain ⟨i, _, w, hw, hm⟩ := h
      exact ⟨i, w, hw, hm⟩
    · rintro ⟨i, w, hw, hm⟩
      have hi : i < s.data.length + 1 :=
        Chat.matchWordAt_lt s.data i w (Chat.spanishWords_ne_nil w hw) hm
      simp only [Chat.hasCommonWord, List.any_eq_true, List.mem_range]
      exact ⟨i, hi, w, hw, hm⟩
  have hdet_es : Chat.detect s = Chat.Lang.es ↔ Chat.isSpanish s = true := by
    unfold Chat.detect
    cases h : Chat.isSpanish s <;> simp
  have hdet_en : Chat.detect s = Chat.Lang.en ↔ ¬ Chat.isSpanish s = true := by
    unfold Chat.detect
    cases h : Chat.isSpanish s <;> simp
  have hsp : Chat.isSpanish s = true ↔
      ((∃ c ∈ s.data, Chat.foldChar c ∈ Chat.accentChars) ∨
        (∃ i w, w ∈ Chat.spanishWords ∧ Chat.matchWordAt s.data i w = true)) := by
    rw [Chat.isSpanish, Bool.or_eq_true]
    exact or_congr hacc hcw
  exact ⟨hdet_es.trans hsp, hdet_en.trans (not_congr hsp)⟩

/-- Claim C10: an ai_enhance request whose lowercased topic is outside
the safe list gets status 200 with the base text unchanged and no
provider call; and on the safe path, when every provider block is
skipped (no key) or fails, the enhanced text is the base text clamped to
its first 6000 characters. -/
theorem claim_C10 :
    (∀ (env : Enhance.Env) (r : Enhance.EReq),
        r.httpMethod = "POST" → r.base ≠ "" → r.topic ≠ "" →
        Chat.jsToLower r.topic ∉ Enhance.safeTopics →
        Enhance.handler env r = (⟨200, some r.base, none⟩, [])) ∧
    (∀ (env : Enhance.Env) (r : Enhance.EReq),
        r.httpMethod = "POST" → r.base ≠ "" → r.topic ≠ "" →
        Chat.jsToLower r.topic ∈ Enhance.safeTopics →
        Enhance.skippedOrFailed env.openai → Enhance.skippedOrFailed env.claude →
        Enhance.skippedOrFailed env.gemini →
        (Enhance.handler env r).1 = ⟨200, some (Enhance.jsSlice r.base 6000), none⟩) := by
  constructor
  · intro env r hm hb ht hmem
    simp [Enhance.handler, hm, hb, ht, hmem]
  · intro env r hm hb ht hmem ho hc hg
    have hrun : (Enhance.runProviders env).1 = none := by
      rcases ho with h | h <;> rcases hc with h' | h' <;> rcases hg with h'' | h'' <;>
        simp [Enhance.runProviders, Enhance.stage, Enhance.jsTruthy, h, h', h'']
    rcases hre : Enhance.runProviders env with ⟨v, cs⟩
    rw [hre] at hrun
    simp only at hrun
    subst hrun
    simp [Enhance.handler, hm, hb, ht, hmem, hre]

/-- Witness for C10 at concrete requests: an unlisted topic, and a safe
topic with every provider skipped or failing. -/
theorem claim_C10_witness :
    Enhance.handler ⟨.ok (some "x"), .noKey, .noKey⟩
        ⟨"POST", "base text", "Gardening", "en"⟩ =
      (⟨200, some "base text", none⟩, []) ∧
    (Enhance.handler ⟨.noKey, .httpError, .noKey⟩
        ⟨"POST", "guidance", "DIABETES", "es"⟩).1 =
      ⟨200, some (Enhance.jsSlice "guidance" 6000), none⟩ :=
  ⟨claim_C10.1 ⟨.ok (some "x"), .noKey, .noKey⟩ ⟨"POST", "base text", "Gardening", "en"⟩
     rfl (by decide) (by decide) (by decide),
   claim_C10.2 ⟨.noKey, .httpError, .noKey⟩ ⟨"POST", "guidance", "DIABETES", "es"⟩
     rfl (by decide) (by decide) (by decide) (Or.inl rfl) (Or.inr rfl) (Or.inl rfl)⟩
